import Mathlib

/-!
Verification of the groundnut-leaf-disease serving scripts.

Shallow embedding of the two Flask serving scripts
(`final year project/test2_0.py`, the ViT service, and `nuuuttsss.py`,
the Keras service), the checkpoint loader in
`final year project/modelinfo.py`, and the pieces of the training script
`final year project/vitmodel.py` the claims refer to.

Conventions of the embedding:
* Python `str` is Lean `String`; where character-level manipulation
  matters (`rsplit`, slicing) we work on `String.toList`.
* Python dicts built from literal keys are association lists
  `List (String × _)`; insertion order is preserved as in CPython.
* Floating-point tensors are idealised as lists over an arbitrary
  `LinearOrderedField`; `exp` (used by `torch.softmax`) is abstracted as
  a function `E` that the theorems assume positive and strictly monotone
  on the relevant points — exactly the properties of the real `exp`.
* Functions whose Python body can raise inside a `try`/`except` that
  returns `None` are embedded as `Option`-valued functions; code that
  raises to the caller is embedded in `Except`.
* External effects (the HTTP library, PIL image decoding, the model
  forward pass) are parameters of the embedded functions: an oracle
  argument records exactly the data the Python code obtains from them.
-/

/-! ### Generic list helpers shared by both services -/

/-- First index of the maximum of a list (ties broken towards the first
occurrence), the semantics of `numpy.argmax` / `torch.argmax`.
`argmaxIdx [] = 0` is a junk value; the Python calls raise on empty input
and the embeddings guard that case separately. -/
def argmaxIdx [LinearOrder α] : List α → Nat
  | [] => 0
  | x :: xs => if ∀ y ∈ xs, y ≤ x then 0 else argmaxIdx xs + 1

/-- `torch.softmax` along the class dimension: `x ↦ E x / Σ E`, with `E`
abstracting the exponential. -/
def softmax [LinearOrderedField α] (E : α → α) (l : List α) : List α :=
  l.map (fun x => E x / (l.map E).sum)

/-- Suffix of a character list after the last `'.'`
(`filename.rsplit('.', 1)[1]`); returns `[]` when no dot occurs, a case
the Python callers guard with `'.' in filename`. -/
def afterLastDot : List Char → List Char
  | [] => []
  | c :: cs =>
      if cs.contains '.' then afterLastDot cs
      else if c = '.' then cs else afterLastDot cs

/-- ASCII lowercasing of a character list (`str.lower` on the ASCII
extensions the scripts compare against). -/
def lowerList (l : List Char) : List Char := l.map Char.toLower

/-- Substring test on character lists, the embedding of Python
`needle in haystack` on strings. -/
def containsSub (needle : List Char) : List Char → Bool
  | [] => needle.isEmpty
  | c :: rest => needle.isPrefixOf (c :: rest) || containsSub needle rest

/-- Association-list lookup, the embedding of `dict.get(key)` for dicts
built from literal keys. -/
def alookup (l : List (String × β)) (k : String) : Option β :=
  match l with
  | [] => none
  | (k', v) :: rest => if k' = k then some v else alookup rest k

/-! ### Shared shapes of the HTTP layer -/

/-- One uploaded file as the handlers see it: a client-supplied filename
plus opaque content (`Img` stands for the bytes that PIL will decode). -/
structure UploadedFile (Img : Type) where
  filename : String
  content : Img

/-- `bool(file)` on a Werkzeug `FileStorage`: true iff the filename is
non-empty. -/
def fileTruthy (f : UploadedFile Img) : Bool := f.filename ≠ ""

/-- The request descriptor both `get_weather` functions hand to
`requests.get`: the formatted URL and the optional `timeout=` argument. -/
structure HttpRequest where
  url : String
  timeoutSeconds : Option Nat
deriving DecidableEq

/-- JSON values, the shape of `response.json()`. Numbers are embedded as
integers: the claims never compute with them, only move them around. -/
inductive JVal where
  | num (n : Int)
  | str (s : String)
  | bool (b : Bool)
  | null
  | arr (elems : List JVal)
  | obj (fields : List (String × JVal))

/-- `data[k]` on a parsed JSON value: `KeyError` on a missing key,
`TypeError` when `data` is not an object. -/
def jget (j : JVal) (k : String) : Except String JVal :=
  match j with
  | .obj fields =>
      match alookup fields k with
      | some v => .ok v
      | none => .error ("KeyError: " ++ k)
  | _ => .error ("TypeError: value not subscriptable at " ++ k)

/-- `data.get(k, d)` on a parsed JSON value: `AttributeError` when `data`
is not an object. -/
def jgetDefault (j : JVal) (k : String) (d : JVal) : Except String JVal :=
  match j with
  | .obj fields => .ok ((alookup fields k).getD d)
  | _ => .error ("AttributeError: no attribute get at " ++ k)

/-- What the embedded `get_weather` observes of `requests.get`: either an
exception from the HTTP library, or a response with a status code and a
body (`none` when `response.json()` fails to parse). -/
inductive HttpOutcome where
  | exn (msg : String)
  | response (status : Nat) (body : Option JVal)

/-- The success payload of `get_weather`: the dict
`{temp, humidity, weather, rain}`. `temp` and `humidity` are passed
through unchecked by the Python code, so they stay arbitrary JSON. -/
structure WeatherSnapshot where
  temp : JVal
  humidity : JVal
  weather : String
  rain : Bool

/-- Result of `get_weather`: the snapshot dict or the
`{"error": message}` dict. -/
inductive WeatherResult where
  | snapshot (s : WeatherSnapshot)
  | errorPayload (msg : JVal)

/-- Body of both `get_weather` functions up to the `except` clause
(`defaultMsg` is the service-specific fallback message of the non-200
branch); `.error` marks a raised exception that the `except` will turn
into an error payload. -/
def get_weather_core (defaultMsg : String) (outcome : HttpOutcome) :
    Except String WeatherResult :=
  match outcome with
  | .exn msg => .error msg
  | .response status body? =>
      match body? with
      | none => .error "JSONDecodeError: response body is not JSON"
      | some data =>
          if status = 200 then do
            let current ← jget data "current"
            let temp ← jget current "temp_c"
            let humidity ← jget current "humidity"
            let condition ← jget current "condition"
            let textJ ← jget condition "text"
            match textJ with
            | .str text =>
                pure (.snapshot
                  { temp := temp, humidity := humidity, weather := text,
                    rain := containsSub ['r','a','i','n'] (lowerList text.toList) })
            | _ => .error "AttributeError: condition text has no lower"
          else do
            let errObj ← jgetDefault data "error" (.obj [])
            let msgJ ← jgetDefault errObj "message" (.str defaultMsg)
            pure (.errorPayload msgJ)

/-- The full `get_weather`: the surrounding `try`/`except Exception`
converts any raised exception `e` into `{"error": str(e)}`. -/
def get_weather_full (defaultMsg : String) (outcome : HttpOutcome) : WeatherResult :=
  match get_weather_core defaultMsg outcome with
  | .ok r => r
  | .error e => .errorPayload (.str e)

/-- The hard-coded WeatherAPI key both scripts embed. -/
def weatherApiKey : String := "f3ac3e90c50e44c29cb141812252509"

/-- The f-string URL both scripts build. -/
def weatherUrl (city : String) : String :=
  "http://api.weatherapi.com/v1/current.json?key=" ++ weatherApiKey ++
    "&q=" ++ city ++ "&aqi=no"

/-- Per-class record of the `DISEASE_INFO` dicts in both scripts. -/
structure DiseaseRecord where
  name : String
  causes : List String
  cure : List String
  prevention : List String
  weather_alerts : List (String × String)
deriving DecidableEq

/-- Shape of the per-image success dict both services return (the ViT
service's `predict_image` and the Keras service's `predict_class` build
dicts with exactly these keys). -/
structure PredictionResult (α : Type) where
  predicted_class : String
  confidence : α
  all_confidences : List α
  causes : List String
  cure : List String
  prevention : List String
  weather_alerts : List (String × String)

/-! ### The ViT service (`final year project/test2_0.py`) -/

namespace Vit

/-- `CLASS_NAMES` of `test2_0.py` (lines 21–24). -/
def CLASS_NAMES : List String :=
  ["ALTERNARIA LEAF SPOT", "ROSETTE", "early_leaf_spot_1", "early_rust_1",
   "healthy_leaf_1", "late_leaf_spot_1", "nutrition_deficiency_1", "rust_1"]

/-- `DISEASE_INFO` of `test2_0.py` (lines 44–131), key order preserved. -/
def DISEASE_INFO : List (String × DiseaseRecord) :=
  [("ALTERNARIA LEAF SPOT",
    { name := "Alternaria Leaf Spot",
      causes :=
        ["Caused by Alternaria spp. (e.g., A. alternata)",
         "Favored by warm, humid conditions",
         "Spread by wind and rain splash",
         "Infected debris sustains inoculum"],
      cure :=
        ["Apply Mancozeb, Chlorothalonil, or Copper oxychloride",
         "Remove and destroy infected leaves",
         "Rotate fungicides to avoid resistance"],
      prevention :=
        ["Use resistant varieties",
         "Crop rotation and field sanitation",
         "Avoid overhead irrigation",
         "Ensure good airflow"],
      weather_alerts :=
        [("high_humidity", "High humidity increases Alternaria risk. Monitor closely.")] }),
   ("ROSETTE",
    { name := "Groundnut Rosette Disease",
      causes :=
        ["Caused by Groundnut Rosette Virus (GRV) + satellite RNA",
         "Transmitted by aphids (Aphis craccivora)",
         "Stressed plants more susceptible"],
      cure :=
        ["No cure — remove and destroy infected plants",
         "Control aphids with Imidacloprid or botanical sprays"],
      prevention :=
        ["Use certified virus-free seeds",
         "Plant resistant varieties",
         "Early planting to avoid peak aphid season",
         "Integrated pest management (IPM)"],
      weather_alerts :=
        [("aphid_risk", "Warm, dry conditions favor aphid migration — monitor vectors.")] }),
   ("early_leaf_spot_1",
    { name := "Early Leaf Spot",
      causes := ["High humidity", "Warm temperatures", "Poor airflow", "Infected residues"],
      cure := ["Copper fungicides", "Propiconazole 25% EC", "Remove infected leaves"],
      prevention := ["Resistant varieties", "Drip irrigation", "Wider spacing"],
      weather_alerts :=
        [("high_humidity", "High humidity promotes leaf spot — use drip irrigation.")] }),
   ("early_rust_1",
    { name := "Early Rust",
      causes := ["20–25°C + high humidity", "Dew/rain", "Wind-borne spores"],
      cure := ["Triadimefon 25% WP", "Hexaconazole 5% SC", "Remove infected leaves"],
      prevention := ["Resistant varieties", "Balanced nutrition", "Early monitoring"],
      weather_alerts := [("high_humidity", "Rust risk rising — increase scouting.")] }),
   ("healthy_leaf_1",
    { name := "Healthy Leaf",
      causes := ["Optimal conditions", "Balanced nutrition", "Good management"],
      cure := ["Continue best practices", "Regular monitoring"],
      prevention := ["High-quality seeds", "Crop rotation", "Avoid over-irrigation"],
      weather_alerts :=
        [("high_humidity", "Healthy now, but watch for fungal risks in humidity.")] }),
   ("late_leaf_spot_1",
    { name := "Late Leaf Spot",
      causes := [">85% humidity", "20–25°C", "Prolonged leaf wetness"],
      cure := ["Chlorothalonil 75% WP", "Tebuconazole + Sulphur", "Alternate fungicides"],
      prevention := ["Resistant cultivars", "Morning irrigation", "Remove debris"],
      weather_alerts :=
        [("high_humidity", "Late leaf spot risk high — avoid overhead watering.")] }),
   ("nutrition_deficiency_1",
    { name := "Nutritional Deficiency",
      causes := ["Imbalanced fertilization", "Soil pH issues", "Poor organic matter"],
      cure := ["Soil test", "Correct fertilizers", "Foliar sprays"],
      prevention := ["Maintain soil pH", "Add compost", "Follow fertilizer schedule"],
      weather_alerts := [("high_rain", "Heavy rain may leach nutrients — test soil.")] }),
   ("rust_1",
    { name := "Advanced Rust",
      causes := ["Untreated early rust", "Persistent humidity", "Delayed action"],
      cure := ["Propiconazole 25% EC", "Systemic + contact mix", "Frequent sprays"],
      prevention := ["Early detection", "Monitor weather", "Maintain plant health"],
      weather_alerts :=
        [("high_humidity", "Advanced rust detected — urgent action required!")] })]

/-- `allowed_file` of `test2_0.py` (lines 135–136):
`'.' in filename and filename.rsplit('.', 1)[1].lower() in
{'png', 'jpg', 'jpeg', 'webp'}`. -/
def allowed_file (filename : String) : Bool :=
  filename.toList.contains '.' &&
    (["png", "jpg", "jpeg", "webp"] : List String).contains
      (String.mk (lowerList (afterLastDot filename.toList)))

/-- The pure tail of `predict_image` (lines 143–157), once the model
forward pass produced the logits row: softmax probabilities, argmax class
id, `CLASS_NAMES` lookup, `DISEASE_INFO` lookup, response dict. `none`
embeds an exception reaching the `except` clause (empty logits make
`argmax` raise; an out-of-range class id makes `CLASS_NAMES[class_id]`
raise `IndexError`). -/
def buildFromLogits [LinearOrderedField α] (E : α → α) (logits : List α) :
    Option (PredictionResult α) :=
  if logits.isEmpty then none
  else
    let probs := softmax E logits
    let class_id := argmaxIdx logits
    match CLASS_NAMES.get? class_id with
    | none => none
    | some predicted_class =>
        let info := alookup DISEASE_INFO predicted_class
        some
          { predicted_class := (info.map (fun r => r.name)).getD predicted_class,
            confidence := probs.getD class_id 0,
            all_confidences := probs,
            causes := (info.map (fun r => r.causes)).getD [],
            cure := (info.map (fun r => r.cure)).getD [],
            prevention := (info.map (fun r => r.prevention)).getD [],
            weather_alerts := (info.map (fun r => r.weather_alerts)).getD [] }

/-- `predict_image` (lines 139–160): decode + transform + forward pass
are the oracle `decodeForward` (PIL decoding or the model can fail, which
the `try` turns into `None`), the rest is `buildFromLogits`. -/
def predict_image [LinearOrderedField α] (E : α → α)
    (decodeForward : Img → Option (List α)) (img : Img) :
    Option (PredictionResult α) :=
  match decodeForward img with
  | none => none
  | some logits => buildFromLogits E logits

/-- One per-file result appended to `results` by the `/predict` loop:
a prediction dict or an `{"error": msg}` dict. -/
inductive FileResult (α : Type) where
  | pred (p : PredictionResult α)
  | err (msg : String)

/-- Body of the `for file in files` loop of `/predict` (lines 197–207). -/
def processFile [LinearOrderedField α] (E : α → α)
    (decodeForward : Img → Option (List α)) (f : UploadedFile Img) :
    FileResult α :=
  if fileTruthy f && allowed_file f.filename then
    match predict_image E decodeForward f.content with
    | some p => .pred p
    | none => .err "Failed to process image"
  else .err ("Invalid file: " ++ f.filename)

/-- The `/predict` route (lines 187–209). `files?` is
`request.files.getlist('images')` when the `images` field is present.
The error side carries the JSON error message and HTTP status. -/
def predictRoute [LinearOrderedField α] (E : α → α)
    (decodeForward : Img → Option (List α))
    (files? : Option (List (UploadedFile Img))) :
    Except (String × Nat) (List (FileResult α)) :=
  match files? with
  | none => .error ("No images provided", 400)
  | some files =>
      if files.isEmpty || files.all (fun f => f.filename == "") then
        .error ("No files selected", 400)
      else
        .ok (files.map (processFile E decodeForward))

/-- `get_weather` of `test2_0.py` (lines 163–178): the non-200 fallback
message is `"Weather fetch failed"`. -/
def get_weather (outcome : HttpOutcome) : WeatherResult :=
  get_weather_full "Weather fetch failed" outcome

/-- The request `test2_0.py`'s `get_weather` issues:
`requests.get(url, timeout=10)`. -/
def get_weather_request (city : String) : HttpRequest :=
  { url := weatherUrl city, timeoutSeconds := some 10 }

end Vit

/-! ### The Keras service (`nuuuttsss.py`) -/

namespace Keras

/-- `CLASSES` of `nuuuttsss.py` (lines 16–23). -/
def CLASSES : List String :=
  ["early_rust_1", "late_leaf_spot_1", "nutrition_deficiency_1",
   "healthy_leaf_1", "early_leaf_spot_1", "rust_1"]

/-- `DISEASE_INFO` of `nuuuttsss.py` (lines 26–160), key order preserved. -/
def DISEASE_INFO : List (String × DiseaseRecord) :=
  [("early_rust_1",
    { name := "Early Rust",
      causes :=
        ["Moderate temperatures (20-25°C) with high humidity",
         "Frequent dew or rainfall",
         "Wind-borne spores from nearby infected plants",
         "Nutrient deficiency weakening plant immunity"],
      cure :=
        ["Apply Triadimefon 25% WP @ 1g/L",
         "Use Hexaconazole 5% SC @ 2ml/L",
         "Improve air circulation in the field",
         "Remove and destroy infected leaves"],
      prevention :=
        ["Plant rust-resistant varieties",
         "Maintain good irrigation practices",
         "Balance soil nutrients",
         "Regularly inspect crops for early signs"],
      weather_alerts :=
        [("high_humidity", "High humidity detected! Increase monitoring for rust spread.")] }),
   ("late_leaf_spot_1",
    { name := "Late Leaf Spot",
      causes :=
        ["High humidity (>85%)",
         "Cool to moderate temperatures (20-25°C)",
         "Prolonged leaf wetness",
         "Dense plant canopy restricting airflow"],
      cure :=
        ["Apply Chlorothalonil 75% WP @ 2g/L",
         "Use Tebuconazole + Sulphur mix",
         "Alternate between contact and systemic fungicides"],
      prevention :=
        ["Use resistant cultivars",
         "Increase plant spacing",
         "Irrigate in mornings for faster drying",
         "Remove infected crop debris"],
      weather_alerts :=
        [("high_humidity", "High humidity may worsen leaf spot. Avoid overhead irrigation.")] }),
   ("nutrition_deficiency_1",
    { name := "Nutritional Deficiency",
      causes :=
        ["Imbalanced or inadequate fertilization",
         "Soil pH too low or too high",
         "Poor organic matter in soil",
         "Waterlogged or excessively dry conditions"],
      cure :=
        ["Conduct soil testing",
         "Apply correct fertilizers based on deficiency",
         "Use foliar sprays for quick correction"],
      prevention :=
        ["Maintain optimal soil pH",
         "Add compost or manure regularly",
         "Follow recommended fertilizer schedules"],
      weather_alerts :=
        [("high_rain", "Heavy rain may leach nutrients. Check soil health.")] }),
   ("healthy_leaf_1",
    { name := "Healthy Leaf",
      causes :=
        ["Optimal growing conditions",
         "Balanced nutrition",
         "Good soil health",
         "Effective pest and disease management"],
      cure :=
        ["Continue good agricultural practices",
         "Regular monitoring for early problem detection"],
      prevention :=
        ["Use high-quality seeds",
         "Maintain crop rotation",
         "Avoid over- or under-irrigation"],
      weather_alerts :=
        [("high_humidity", "Healthy leaves detected, but monitor for fungal risks in humid conditions.")] }),
   ("early_leaf_spot_1",
    { name := "Early Leaf Spot",
      causes :=
        ["High humidity and warm temperatures",
         "Poor air circulation",
         "Overhead irrigation causing wet leaves",
         "Infected crop residues in soil"],
      cure :=
        ["Apply copper-based fungicides",
         "Use Propiconazole 25% EC",
         "Remove infected leaves immediately"],
      prevention :=
        ["Use disease-resistant varieties",
         "Improve plant spacing",
         "Switch to drip irrigation"],
      weather_alerts :=
        [("high_humidity", "High humidity increases leaf spot risk. Use drip irrigation.")] }),
   ("rust_1",
    { name := "Advanced Rust",
      causes :=
        ["Untreated early rust progression",
         "Persistent humid conditions",
         "Delayed disease control measures"],
      cure :=
        ["Apply Propiconazole 25% EC",
         "Combine systemic and contact fungicides",
         "Increase spraying frequency"],
      prevention :=
        ["Early detection and treatment",
         "Monitor weather for rust-favoring conditions",
         "Maintain optimal plant health"],
      weather_alerts :=
        [("high_humidity", "Advanced rust detected! Urgent action needed in humid conditions.")] })]

/-- `ALLOWED_EXTENSIONS` of `nuuuttsss.py` (line 13). -/
def ALLOWED_EXTENSIONS : List String := ["png", "jpg", "jpeg", "webp"]

/-- `allowed_file` of `nuuuttsss.py` (lines 170–171):
`'.' in filename and filename.rsplit('.', 1)[1].lower() in
ALLOWED_EXTENSIONS`. -/
def allowed_file (filename : String) : Bool :=
  filename.toList.contains '.' &&
    ALLOWED_EXTENSIONS.contains
      (String.mk (lowerList (afterLastDot filename.toList)))

/-- `predict_class` of `nuuuttsss.py` (lines 186–206). The loaded Keras
model is `model : Option (ImgArr → List α)`; `none` embeds the failed
`tf.keras.models.load_model` (line 167 sets `model = None`, and line 189
raises inside the `try`). `m a` is `model.predict(image_array)[0]`, the
per-class output row. `none` results embed an exception caught on line
204: a raised "Model not loaded", `np.argmax` on an empty row, or
`IndexError` from `CLASSES[predicted_class_idx]`. -/
def predict_class {ImgArr : Type} [LinearOrderedField α]
    (model : Option (ImgArr → List α)) (image_array : ImgArr) :
    Option (PredictionResult α) :=
  match model with
  | none => none
  | some m =>
      let predictions := m image_array
      if predictions.isEmpty then none
      else
        let predicted_class_idx := argmaxIdx predictions
        let confidence := predictions.getD predicted_class_idx 0
        match CLASSES.get? predicted_class_idx with
        | none => none
        | some predicted_class =>
            let info := alookup DISEASE_INFO predicted_class
            some
              { predicted_class := (info.map (fun r => r.name)).getD predicted_class,
                confidence := confidence,
                causes := (info.map (fun r => r.causes)).getD [],
                cure := (info.map (fun r => r.cure)).getD [],
                prevention := (info.map (fun r => r.prevention)).getD [],
                all_confidences := predictions,
                weather_alerts := (info.map (fun r => r.weather_alerts)).getD [] }

/-- Response of the `/predict` route of `nuuuttsss.py`: JSON body plus
HTTP status (200 for the prediction dict). -/
inductive RouteResponse (α : Type) where
  | ok (r : PredictionResult α)
  | err (msg : String) (status : Nat)

/-- The `/predict` route of `nuuuttsss.py` (lines 985–1005). `file?` is
`request.files['image']` when the field is present; `preprocess` is
`preprocess_image` (an oracle over the opaque image content: PIL decode,
resize, scale — `none` on decode failure). -/
def predictRoute {Img ImgArr : Type} [LinearOrderedField α]
    (file? : Option (UploadedFile Img)) (preprocess : Img → Option ImgArr)
    (model : Option (ImgArr → List α)) : RouteResponse α :=
  match file? with
  | none => .err "No image file provided" 400
  | some file =>
      if file.filename = "" then .err "No file selected" 400
      else if ¬ allowed_file file.filename then
        .err "Invalid file type. Please upload PNG, JPG, JPEG, or WebP files." 400
      else
        match preprocess file.content with
        | none => .err "Error processing image" 500
        | some image_array =>
            match predict_class model image_array with
            | none => .err "Error making prediction" 500
            | some r => .ok r

/-- `get_weather` of `nuuuttsss.py` (lines 210–226): the non-200 fallback
message is `"Failed to fetch weather"`. -/
def get_weather (outcome : HttpOutcome) : WeatherResult :=
  get_weather_full "Failed to fetch weather" outcome

/-- The request `nuuuttsss.py`'s `get_weather` issues (line 214):
`requests.get(url)` — no `timeout=` argument. -/
def get_weather_request (city : String) : HttpRequest :=
  { url := weatherUrl city, timeoutSeconds := none }

end Keras

/-! ### The checkpoint loader (`final year project/modelinfo.py`) -/

namespace Modelinfo

/-- `k.startswith("module.")` for the literal prefix of `load_model`
(line 43). -/
def startsWithModule : List Char → Bool
  | 'm' :: 'o' :: 'd' :: 'u' :: 'l' :: 'e' :: '.' :: _ => true
  | _ => false

/-- The characters of the literal `"module."`. -/
def moduleDot : List Char := ['m', 'o', 'd', 'u', 'l', 'e', '.']

/-- Per-key normalization of `load_model` (lines 43–46): keys starting
with `"module."` lose their first 7 characters (`k[7:]`), all other keys
are kept. Keys are Python `str`, embedded as `List Char`. -/
def normalizeKey (k : List Char) : List Char :=
  if startsWithModule k then k.drop 7 else k

/-- The `new_checkpoint` loop of `load_model` (lines 41–46) over the
checkpoint dict (an association list of key/tensor pairs; `V` is the
opaque tensor type): every entry is re-inserted under its normalized
key with its value unchanged. -/
def normalizeCheckpoint (ckpt : List (List Char × V)) : List (List Char × V) :=
  ckpt.map (fun kv => (normalizeKey kv.1, kv.2))

end Modelinfo

/-! ### Lemmas about `argmaxIdx` and `softmax` -/

lemma argmaxIdx_cons_of_le [LinearOrder α] (x : α) (xs : List α)
    (h : ∀ y ∈ xs, y ≤ x) : argmaxIdx (x :: xs) = 0 := by
  simp only [argmaxIdx]
  exact if_pos h

lemma argmaxIdx_cons_of_not_le [LinearOrder α] (x : α) (xs : List α)
    (h : ¬ ∀ y ∈ xs, y ≤ x) : argmaxIdx (x :: xs) = argmaxIdx xs + 1 := by
  simp only [argmaxIdx]
  exact if_neg h

lemma argmaxIdx_lt_length [LinearOrder α] :
    ∀ l : List α, l ≠ [] → argmaxIdx l < l.length := by
  intro l
  induction l with
  | nil => intro h; exact absurd rfl h
  | cons x xs ih =>
      intro _
      by_cases hc : ∀ y ∈ xs, y ≤ x
      · rw [argmaxIdx_cons_of_le x xs hc]
        simp
      · have hxs : xs ≠ [] := by
          rintro rfl
          exact hc (by simp)
        rw [argmaxIdx_cons_of_not_le x xs hc]
        simpa using Nat.succ_lt_succ (ih hxs)

lemma le_getD_argmaxIdx [LinearOrder α] (d : α) :
    ∀ l : List α, ∀ y ∈ l, y ≤ l.getD (argmaxIdx l) d := by
  intro l
  induction l with
  | nil => intro y hy; cases hy
  | cons x xs ih =>
      intro y hy
      by_cases hc : ∀ y ∈ xs, y ≤ x
      · rw [argmaxIdx_cons_of_le x xs hc]
        rcases List.mem_cons.1 hy with rfl | hmem
        · simp
        · simpa using hc y hmem
      · rw [argmaxIdx_cons_of_not_le x xs hc]
        push_neg at hc
        obtain ⟨z, hz, hxz⟩ := hc
        rcases List.mem_cons.1 hy with rfl | hmem
        · have hle : y ≤ xs.getD (argmaxIdx xs) d :=
            le_of_lt (lt_of_lt_of_le hxz (ih z hz))
          simpa using hle
        · simpa using ih y hmem

lemma argmaxIdx_map [LinearOrder α] [LinearOrder β] (f : α → β) :
    ∀ l : List α, (∀ a ∈ l, ∀ b ∈ l, a < b → f a < f b) →
      argmaxIdx (l.map f) = argmaxIdx l := by
  intro l
  induction l with
  | nil => intro _; rfl
  | cons x xs ih =>
      intro hm
      have key : (∀ y ∈ xs.map f, y ≤ f x) ↔ ∀ y ∈ xs, y ≤ x := by
        constructor
        · intro h y hy
          by_contra hlt
          push_neg at hlt
          have hfx : f x < f y :=
            hm x (List.mem_cons_self x xs) y (List.mem_cons_of_mem x hy) hlt
          exact absurd (h (f y) (List.mem_map_of_mem f hy)) (not_le.2 hfx)
        · intro h y hy
          obtain ⟨a, ha, rfl⟩ := List.mem_map.1 hy
          rcases lt_or_eq_of_le (h a ha) with hlt | heq
          · exact le_of_lt
              (hm a (List.mem_cons_of_mem x ha) x (List.mem_cons_self x xs) hlt)
          · rw [heq]
      rw [List.map_cons]
      by_cases hc : ∀ y ∈ xs, y ≤ x
      · rw [argmaxIdx_cons_of_le _ _ (key.2 hc), argmaxIdx_cons_of_le _ _ hc]
      · rw [argmaxIdx_cons_of_not_le _ _ (fun h => hc (key.1 h)),
          argmaxIdx_cons_of_not_le _ _ hc]
        have hm' : ∀ a ∈ xs, ∀ b ∈ xs, a < b → f a < f b := fun a ha b hb =>
          hm a (List.mem_cons_of_mem x ha) b (List.mem_cons_of_mem x hb)
        rw [ih hm']

lemma sum_map_div [DivisionRing α] (l : List α) (c : α) :
    (l.map (fun x => x / c)).sum = l.sum / c := by
  induction l with
  | nil => simp
  | cons x xs ih => simp [ih, add_div]

lemma softmax_length [LinearOrderedField α] (E : α → α) (l : List α) :
    (softmax E l).length = l.length := by
  simp [softmax]

lemma sum_map_pos [LinearOrderedField α] (E : α → α) (l : List α)
    (hpos : ∀ x ∈ l, 0 < E x) (hne : l ≠ []) : 0 < (l.map E).sum := by
  apply List.sum_pos
  · intro y hy
    obtain ⟨a, ha, rfl⟩ := List.mem_map.1 hy
    exact hpos a ha
  · simpa using hne

/-- The softmax probabilities sum to 1 (exactly, in the idealised
field-valued semantics). -/
lemma softmax_sum_eq_one [LinearOrderedField α] (E : α → α) (l : List α)
    (hpos : ∀ x ∈ l, 0 < E x) (hne : l ≠ []) : (softmax E l).sum = 1 := by
  have hS : 0 < (l.map E).sum := sum_map_pos E l hpos hne
  have : softmax E l = (l.map E).map (fun y => y / (l.map E).sum) := by
    simp [softmax, List.map_map, Function.comp]
  rw [this, sum_map_div, div_self (ne_of_gt hS)]

/-- Every softmax probability lies in `[0, 1]`. -/
lemma softmax_mem_bounds [LinearOrderedField α] (E : α → α) (l : List α)
    (hpos : ∀ x ∈ l, 0 < E x) (hne : l ≠ []) :
    ∀ p ∈ softmax E l, 0 ≤ p ∧ p ≤ 1 := by
  intro p hp
  have hS : 0 < (l.map E).sum := sum_map_pos E l hpos hne
  obtain ⟨a, ha, rfl⟩ := List.mem_map.1 hp
  constructor
  · exact div_nonneg (le_of_lt (hpos a ha)) (le_of_lt hS)
  · rw [div_le_one hS]
    exact List.single_le_sum
      (fun y hy => by
        obtain ⟨b, hb, rfl⟩ := List.mem_map.1 hy
        exact le_of_lt (hpos b hb))
      (E a) (List.mem_map_of_mem E ha)

/-- Softmax preserves the argmax index: the map
`x ↦ E x / Σ E` is strictly monotone on the list elements whenever `E`
is, since the denominator is a fixed positive value. -/
lemma argmaxIdx_softmax [LinearOrderedField α] (E : α → α) (l : List α)
    (hpos : ∀ x ∈ l, 0 < E x)
    (hmono : ∀ a ∈ l, ∀ b ∈ l, a < b → E a < E b) (hne : l ≠ []) :
    argmaxIdx (softmax E l) = argmaxIdx l := by
  have hS : 0 < (l.map E).sum := sum_map_pos E l hpos hne
  exact argmaxIdx_map _ l (fun a ha b hb hab =>
    (div_lt_div_iff_of_pos_right hS).2 (hmono a ha b hb hab))

/-! ### Further helper lemmas -/

/-- A filename accepted by the extension check is non-empty (it contains
a dot), so `bool(file)` cannot veto a file that passed `allowed_file`. -/
lemma vit_allowed_file_ne_empty {s : String} (h : Vit.allowed_file s = true) :
    s ≠ "" := by
  rintro rfl
  exact absurd h (by decide)

/-- Bool-level check that a `DISEASE_INFO` lookup succeeded with
non-empty causes, cure and prevention lists. -/
def recordOk (o : Option DiseaseRecord) : Bool :=
  match o with
  | none => false
  | some rec =>
      !(rec.causes.isEmpty) && !(rec.cure.isEmpty) && !(rec.prevention.isEmpty)

lemma recordOk_iff (o : Option DiseaseRecord) :
    recordOk o = true ↔
      ∃ rec, o = some rec ∧ rec.causes ≠ [] ∧ rec.cure ≠ [] ∧
        rec.prevention ≠ [] := by
  cases o with
  | none => simp [recordOk]
  | some rec =>
      simp [recordOk, List.isEmpty_iff, and_assoc]

/-! ### C1 -/

/-- C1: the two serving scripts disagree as index-to-label mappings: the
lists have lengths 8 and 6, and already at index 0 the ViT service's
`CLASS_NAMES` assigns `"ALTERNARIA LEAF SPOT"` while the Keras service's
`CLASSES` assigns `"early_rust_1"`, so a checkpoint trained under one
ordering is mislabeled when served by the other. -/
theorem C1_class_label_orderings_diverge :
    Vit.CLASS_NAMES.length = 8 ∧ Keras.CLASSES.length = 6 ∧
    Vit.CLASS_NAMES.length ≠ Keras.CLASSES.length ∧
    ∃ i, i < Vit.CLASS_NAMES.length ∧ i < Keras.CLASSES.length ∧
      Vit.CLASS_NAMES.getD i "" ≠ Keras.CLASSES.getD i "" :=
  ⟨rfl, rfl, by decide, 0, by decide, by decide, by decide⟩

/-! ### C4 -/

/-- C4: `load_model`'s key normalization maps every key of the form
`"module." ++ k` to `k` with its value unchanged, keeps every other key
as-is, and therefore a checkpoint whose keys all carry the
distributed-training prefix normalizes to exactly the same key/value
list as the unprefixed checkpoint. -/
theorem C4_module_prefix_normalization {V : Type} :
    (∀ k : List Char, Modelinfo.normalizeKey (Modelinfo.moduleDot ++ k) = k) ∧
    (∀ k : List Char, Modelinfo.startsWithModule k = false →
      Modelinfo.normalizeKey k = k) ∧
    (∀ ckpt : List (List Char × V),
      Modelinfo.normalizeCheckpoint
        (ckpt.map (fun p => (Modelinfo.moduleDot ++ p.1, p.2))) = ckpt) := by
  refine ⟨fun k => rfl, fun k hk => ?_, fun ckpt => ?_⟩
  · simp [Modelinfo.normalizeKey, hk]
  · induction ckpt with
    | nil => rfl
    | cons p ps ih =>
        simp only [Modelinfo.normalizeCheckpoint, List.map_cons, List.map_map] at *
        exact congrArg₂ List.cons rfl ih

/-- Witness for C4 at concrete inputs. -/
theorem C4_module_prefix_normalization_witness :
    Modelinfo.normalizeKey (Modelinfo.moduleDot ++ ['f', 'c']) = ['f', 'c'] ∧
    (Modelinfo.startsWithModule ['f', 'c'] = false ∧
      Modelinfo.normalizeKey ['f', 'c'] = ['f', 'c']) ∧
    Modelinfo.normalizeCheckpoint
      (([(['f', 'c'], 0)] : List (List Char × Nat)).map
        (fun p => (Modelinfo.moduleDot ++ p.1, p.2))) = [(['f', 'c'], 0)] :=
  ⟨(@C4_module_prefix_normalization Nat).1 ['f', 'c'],
   ⟨by decide,
    (@C4_module_prefix_normalization Nat).2.1 ['f', 'c'] (by decide)⟩,
   (@C4_module_prefix_normalization Nat).2.2 [(['f', 'c'], 0)]⟩

/-! ### C7 -/

/-- C7 counterexample: the Keras service's `get_weather` issues its
request with no `timeout=` argument, so the claim that every weather
request carries a fixed timeout fails on `nuuuttsss.py` (here at the
default city). -/
theorem C7_counterexample_keras_no_timeout :
    (Keras.get_weather_request "eMpangeni").timeoutSeconds = none := rfl

/-- C7 (amended): every weather request of the ViT service carries the
fixed 10-second timeout, while every weather request of the Keras
service is issued without a timeout; both hit the same fixed URL
template. -/
theorem C7_amended_timeout_per_service (city : String) :
    (Vit.get_weather_request city).timeoutSeconds = some 10 ∧
    (Keras.get_weather_request city).timeoutSeconds = none ∧
    (Vit.get_weather_request city).url = weatherUrl city ∧
    (Keras.get_weather_request city).url = weatherUrl city :=
  ⟨rfl, rfl, rfl, rfl⟩

/-! ### C2 -/

/-- C2: in both services a file whose filename has no dot or whose
lowercased extension after the last dot is not one of
png/jpg/jpeg/webp is answered with an error result, and the result is
the same for every preprocessing/classifier oracle (so neither is ever
consulted); a file that passes the check proceeds into the
preprocessing pipeline, whose outcome then determines the response. -/
theorem C2_extension_gate :
    (∀ (Img α : Type) [LinearOrderedField α] (E : α → α)
        (dF : Img → Option (List α)) (f : UploadedFile Img),
        Vit.allowed_file f.filename = false →
        Vit.processFile E dF f =
          .err ("Invalid file: " ++ f.filename)) ∧
    (∀ (Img α : Type) [LinearOrderedField α] (E : α → α)
        (dF : Img → Option (List α)) (f : UploadedFile Img),
        Vit.allowed_file f.filename = true →
        Vit.processFile E dF f =
          match Vit.predict_image E dF f.content with
          | some p => .pred p
          | none => .err "Failed to process image") ∧
    (∀ (Img ImgArr α : Type) [LinearOrderedField α] (f : UploadedFile Img)
        (pp : Img → Option ImgArr) (model : Option (ImgArr → List α)),
        f.filename ≠ "" →
        Keras.allowed_file f.filename = false →
        Keras.predictRoute (some f) pp model =
          .err "Invalid file type. Please upload PNG, JPG, JPEG, or WebP files." 400) ∧
    (∀ (Img ImgArr α : Type) [LinearOrderedField α] (f : UploadedFile Img)
        (pp : Img → Option ImgArr) (model : Option (ImgArr → List α)),
        f.filename ≠ "" →
        Keras.allowed_file f.filename = true →
        Keras.predictRoute (some f) pp model =
          match pp f.content with
          | none => .err "Error processing image" 500
          | some image_array =>
              match Keras.predict_class model image_array with
              | none => .err "Error making prediction" 500
              | some r => .ok r) := by
  refine ⟨?_, ?_, ?_, ?_⟩
  · intro Img α _ E dF f h
    simp [Vit.processFile, h]
  · intro Img α _ E dF f h
    have hne : f.filename ≠ "" := vit_allowed_file_ne_empty h
    simp only [Vit.processFile, fileTruthy, h]
    rw [if_pos (by simp [hne])]
  · intro Img ImgArr α _ f pp model hne h
    simp [Keras.predictRoute, hne, h]
  · intro Img ImgArr α _ f pp model hne h
    simp [Keras.predictRoute, hne, h]

/-- Witness for C2 at concrete files: `"bad.txt"` is rejected without
consulting the oracles, `"leaf.JPG"` is processed. -/
theorem C2_extension_gate_witness :
    Vit.allowed_file "bad.txt" = false ∧
    Vit.processFile (fun x : ℚ => x) (fun _ : Unit => none)
      ⟨"bad.txt", ()⟩ = .err ("Invalid file: " ++ "bad.txt") ∧
    Vit.allowed_file "leaf.JPG" = true ∧
    Vit.processFile (fun x : ℚ => x) (fun _ : Unit => none)
      ⟨"leaf.JPG", ()⟩ = .err "Failed to process image" ∧
    Keras.predictRoute (some (⟨"bad.txt", ()⟩ : UploadedFile Unit))
      (fun _ : Unit => (none : Option Unit)) (none : Option (Unit → List ℚ)) =
      .err "Invalid file type. Please upload PNG, JPG, JPEG, or WebP files." 400 ∧
    Keras.predictRoute (some (⟨"leaf.JPG", ()⟩ : UploadedFile Unit))
      (fun _ : Unit => (none : Option Unit)) (none : Option (Unit → List ℚ)) =
      .err "Error processing image" 500 :=
  ⟨by decide,
   C2_extension_gate.1 Unit ℚ (fun x => x) (fun _ => none)
     ⟨"bad.txt", ()⟩ (by decide),
   by decide,
   C2_extension_gate.2.1 Unit ℚ (fun x => x) (fun _ => none)
     ⟨"leaf.JPG", ()⟩ (by decide),
   C2_extension_gate.2.2.1 Unit Unit ℚ ⟨"bad.txt", ()⟩ (fun _ => none) none
     (by decide) (by decide),
   C2_extension_gate.2.2.2 Unit Unit ℚ ⟨"leaf.JPG", ()⟩ (fun _ => none) none
     (by decide) (by decide)⟩

/-! ### C3 -/

/-- A well-formed 200 response body for `get_weather`: exactly the keys
the code reads (`current.temp_c`, `current.humidity`,
`current.condition.text`), with arbitrary values for the first two. -/
def goodBody (temp humidity : JVal) (text : String) : JVal :=
  .obj [("current", .obj
    [("temp_c", temp), ("humidity", humidity),
     ("condition", .obj [("text", .str text)])])]

/-- Bool discriminator for `WeatherResult`: true on the
`{"error": ...}` payload. -/
def WeatherResult.isError : WeatherResult → Bool
  | .errorPayload _ => true
  | .snapshot _ => false

lemma WeatherResult.isError_iff (r : WeatherResult) :
    r.isError = true ↔ ∃ m, r = .errorPayload m := by
  cases r with
  | snapshot s => simp [WeatherResult.isError]
  | errorPayload m => simp [WeatherResult.isError]

/-- Any non-200 response is mapped to an error payload, whatever the
body looks like. -/
lemma get_weather_full_non200 (dmsg : String) (status : Nat)
    (body? : Option JVal) (h : status ≠ 200) :
    ∃ m, get_weather_full dmsg (.response status body?) = .errorPayload m := by
  rw [← WeatherResult.isError_iff]
  cases body? with
  | none => rfl
  | some data =>
      cases data with
      | obj fields =>
          cases hE : (alookup fields "error").getD (.obj []) <;>
            simp [get_weather_full, get_weather_core, jgetDefault, h, hE,
              bind, Except.bind, Functor.map, Except.map, pure, Except.pure,
              WeatherResult.isError]
      | num n =>
          simp [get_weather_full, get_weather_core, jgetDefault, h,
            bind, Except.bind, WeatherResult.isError]
      | str s =>
          simp [get_weather_full, get_weather_core, jgetDefault, h,
            bind, Except.bind, WeatherResult.isError]
      | bool b =>
          simp [get_weather_full, get_weather_core, jgetDefault, h,
            bind, Except.bind, WeatherResult.isError]
      | null =>
          simp [get_weather_full, get_weather_core, jgetDefault, h,
            bind, Except.bind, WeatherResult.isError]
      | arr elems =>
          simp [get_weather_full, get_weather_core, jgetDefault, h,
            bind, Except.bind, WeatherResult.isError]

/-- A snapshot result can only come from a 200 response with a parsed
body. -/
lemma get_weather_full_snapshot_imp (dmsg : String) (outcome : HttpOutcome)
    (s : WeatherSnapshot) (h : get_weather_full dmsg outcome = .snapshot s) :
    ∃ body, outcome = .response 200 (some body) := by
  cases outcome with
  | exn msg => exact absurd h (by simp [get_weather_full, get_weather_core])
  | response status body? =>
      cases body? with
      | none => exact absurd h (by simp [get_weather_full, get_weather_core])
      | some data =>
          by_cases h200 : status = 200
          · exact ⟨data, by rw [h200]⟩
          · obtain ⟨m, hm⟩ := get_weather_full_non200 dmsg status (some data) h200
            rw [hm] at h
            exact WeatherResult.noConfusion h

/-- C3: for every outcome of the external weather call both services'
`get_weather` return a value of the two-case result type — a snapshot
dict with keys temp/humidity/weather/rain or an `{"error": message}`
dict — and never raise: an exception from the HTTP library becomes
`{"error": str(e)}`; a non-200 status becomes an error payload; a
snapshot arises only from a 200 response; a well-formed 200 body yields
the snapshot of its four fields; a 200 body missing the `current` key
becomes an error payload (the caught `KeyError`). -/
theorem C3_weather_never_raises :
    (∀ msg,
        Vit.get_weather (.exn msg) = .errorPayload (.str msg) ∧
        Keras.get_weather (.exn msg) = .errorPayload (.str msg)) ∧
    (∀ (status : Nat) (body? : Option JVal), status ≠ 200 →
        (∃ m, Vit.get_weather (.response status body?) = .errorPayload m) ∧
        (∃ m, Keras.get_weather (.response status body?) = .errorPayload m)) ∧
    (∀ (outcome : HttpOutcome) (s : WeatherSnapshot),
        Vit.get_weather outcome = .snapshot s ∨
        Keras.get_weather outcome = .snapshot s →
        ∃ body, outcome = .response 200 (some body)) ∧
    (∀ (temp humidity : JVal) (text : String),
        Vit.get_weather (.response 200 (some (goodBody temp humidity text))) =
          .snapshot ⟨temp, humidity, text,
            containsSub ['r','a','i','n'] (lowerList text.toList)⟩ ∧
        Keras.get_weather (.response 200 (some (goodBody temp humidity text))) =
          .snapshot ⟨temp, humidity, text,
            containsSub ['r','a','i','n'] (lowerList text.toList)⟩) ∧
    (∀ fields : List (String × JVal), alookup fields "current" = none →
        Vit.get_weather (.response 200 (some (.obj fields))) =
          .errorPayload (.str "KeyError: current") ∧
        Keras.get_weather (.response 200 (some (.obj fields))) =
          .errorPayload (.str "KeyError: current")) := by
  refine ⟨fun msg => ⟨rfl, rfl⟩, ?_, ?_, ?_, ?_⟩
  · intro status body? h
    exact ⟨get_weather_full_non200 _ status body? h,
      get_weather_full_non200 _ status body? h⟩
  · intro outcome s hs
    rcases hs with h | h
    · exact get_weather_full_snapshot_imp _ outcome s h
    · exact get_weather_full_snapshot_imp _ outcome s h
  · intro temp humidity text
    constructor <;>
      simp [Vit.get_weather, Keras.get_weather, get_weather_full,
        get_weather_core, goodBody, jget, alookup,
        bind, Except.bind, pure, Except.pure]
  · intro fields h
    constructor <;>
      simp [Vit.get_weather, Keras.get_weather, get_weather_full,
        get_weather_core, jget, h, bind, Except.bind]

/-- Witness for C3 at concrete outcomes: a network exception, a 404, a
well-formed rainy 200 response and a 200 response with an empty body
object. -/
theorem C3_weather_never_raises_witness :
    Vit.get_weather (.exn "connection refused") =
      .errorPayload (.str "connection refused") ∧
    (404 ≠ 200 ∧
      ∃ m, Keras.get_weather (.response 404 (some (.obj []))) =
        .errorPayload m) ∧
    (∃ body, (HttpOutcome.response 200 (some (goodBody (.num 21) (.num 88) "Light rain"))) =
        .response 200 (some body)) ∧
    Vit.get_weather
        (.response 200 (some (goodBody (.num 21) (.num 88) "Light rain"))) =
      .snapshot ⟨.num 21, .num 88, "Light rain", true⟩ ∧
    Keras.get_weather (.response 200 (some (.obj []))) =
      .errorPayload (.str "KeyError: current") := by
  refine ⟨(C3_weather_never_raises.1 "connection refused").1,
    ⟨by decide, (C3_weather_never_raises.2.1 404 (some (.obj [])) (by decide)).2⟩,
    ?_, ?_, (C3_weather_never_raises.2.2.2.2 [] rfl).2⟩
  · have h :
        Vit.get_weather
            (.response 200 (some (goodBody (.num 21) (.num 88) "Light rain"))) =
          .snapshot ⟨.num 21, .num 88, "Light rain", true⟩ :=
      (C3_weather_never_raises.2.2.2.1 (.num 21) (.num 88) "Light rain").1
    exact C3_weather_never_raises.2.2.1 _ _ (.inl h)
  · exact (C3_weather_never_raises.2.2.2.1 (.num 21) (.num 88) "Light rain").1

/-! ### C5 -/

/-- C5: in both services the predicted label is the class at the argmax
index of the model output, the reported confidence is the probability
vector's entry at that index, and it equals the maximum entry of the
returned `all_confidences`; for the ViT service this uses that softmax
(with a positive, strictly monotone exponential) preserves the argmax of
the logits. `logits.length = 8` and `(m a).length = 6` are the output
widths the services instantiate their models with. -/
theorem C5_confidence_is_argmax_probability :
    (∀ (α : Type) [LinearOrderedField α] (E : α → α) (logits : List α),
        logits.length = 8 →
        (∀ x ∈ logits, 0 < E x) →
        (∀ a ∈ logits, ∀ b ∈ logits, a < b → E a < E b) →
        ∃ (r : PredictionResult α) (cls : String),
          Vit.buildFromLogits E logits = some r ∧
          Vit.CLASS_NAMES.get? (argmaxIdx logits) = some cls ∧
          r.predicted_class =
            ((alookup Vit.DISEASE_INFO cls).map (fun d => d.name)).getD cls ∧
          r.all_confidences = softmax E logits ∧
          r.confidence = r.all_confidences.getD (argmaxIdx logits) 0 ∧
          argmaxIdx r.all_confidences = argmaxIdx logits ∧
          (∀ p ∈ r.all_confidences, p ≤ r.confidence)) ∧
    (∀ (α : Type) [LinearOrderedField α] (ImgArr : Type)
        (m : ImgArr → List α) (a : ImgArr),
        (m a).length = 6 →
        ∃ (r : PredictionResult α) (cls : String),
          Keras.predict_class (some m) a = some r ∧
          Keras.CLASSES.get? (argmaxIdx (m a)) = some cls ∧
          r.predicted_class =
            ((alookup Keras.DISEASE_INFO cls).map (fun d => d.name)).getD cls ∧
          r.all_confidences = m a ∧
          r.confidence = r.all_confidences.getD (argmaxIdx (m a)) 0 ∧
          (∀ p ∈ r.all_confidences, p ≤ r.confidence)) := by
  constructor
  · intro α _ E logits hlen hpos hmono
    have hne : logits ≠ [] := by rintro rfl; simp at hlen
    have hlt : argmaxIdx logits < logits.length := argmaxIdx_lt_length logits hne
    have hidx : argmaxIdx logits < Vit.CLASS_NAMES.length := by
      rw [hlen] at hlt
      exact hlt
    obtain ⟨cls, hcls⟩ : ∃ cls,
        Vit.CLASS_NAMES.get? (argmaxIdx logits) = some cls :=
      ⟨_, List.get?_eq_get hidx⟩
    have hbuild : Vit.buildFromLogits E logits = some
        { predicted_class :=
            ((alookup Vit.DISEASE_INFO cls).map (fun d => d.name)).getD cls,
          confidence := (softmax E logits).getD (argmaxIdx logits) 0,
          all_confidences := softmax E logits,
          causes := ((alookup Vit.DISEASE_INFO cls).map (fun d => d.causes)).getD [],
          cure := ((alookup Vit.DISEASE_INFO cls).map (fun d => d.cure)).getD [],
          prevention :=
            ((alookup Vit.DISEASE_INFO cls).map (fun d => d.prevention)).getD [],
          weather_alerts :=
            ((alookup Vit.DISEASE_INFO cls).map (fun d => d.weather_alerts)).getD [] } := by
      simp only [Vit.buildFromLogits]
      rw [if_neg (by simp [hne])]
      rw [hcls]
    refine ⟨_, cls, hbuild, hcls, rfl, rfl, rfl,
      argmaxIdx_softmax E logits hpos hmono hne, ?_⟩
    intro p hp
    have hmax := le_getD_argmaxIdx 0 (softmax E logits) p hp
    rw [argmaxIdx_softmax E logits hpos hmono hne] at hmax
    exact hmax
  · intro α _ ImgArr m a hlen
    have hne : m a ≠ [] := by
      intro h
      rw [h] at hlen
      simp at hlen
    have hlt : argmaxIdx (m a) < (m a).length := argmaxIdx_lt_length (m a) hne
    have hidx : argmaxIdx (m a) < Keras.CLASSES.length := by
      rw [hlen] at hlt
      exact hlt
    obtain ⟨cls, hcls⟩ : ∃ cls,
        Keras.CLASSES.get? (argmaxIdx (m a)) = some cls :=
      ⟨_, List.get?_eq_get hidx⟩
    have hbuild : Keras.predict_class (some m) a = some
        { predicted_class :=
            ((alookup Keras.DISEASE_INFO cls).map (fun d => d.name)).getD cls,
          confidence := (m a).getD (argmaxIdx (m a)) 0,
          causes := ((alookup Keras.DISEASE_INFO cls).map (fun d => d.causes)).getD [],
          cure := ((alookup Keras.DISEASE_INFO cls).map (fun d => d.cure)).getD [],
          prevention :=
            ((alookup Keras.DISEASE_INFO cls).map (fun d => d.prevention)).getD [],
          all_confidences := m a,
          weather_alerts :=
            ((alookup Keras.DISEASE_INFO cls).map (fun d => d.weather_alerts)).getD [] } := by
      simp only [Keras.predict_class]
      rw [if_neg (by simp [hne])]
      rw [hcls]
    refine ⟨_, cls, hbuild, hcls, rfl, rfl, rfl, ?_⟩
    intro p hp
    exact le_getD_argmaxIdx 0 (m a) p hp

/-- Witness for C5: the ViT side at logits `[0,1,0,0,0,0,0,0]` with the
positive strictly monotone surrogate `x ↦ x + 2` for the exponential,
the Keras side at model output `[0,0,1,0,0,0]`. -/
theorem C5_confidence_is_argmax_probability_witness :
    (∃ (r : PredictionResult ℚ) (cls : String),
        Vit.buildFromLogits (fun x => x + 2)
            ([0, 1, 0, 0, 0, 0, 0, 0] : List ℚ) = some r ∧
        Vit.CLASS_NAMES.get?
            (argmaxIdx ([0, 1, 0, 0, 0, 0, 0, 0] : List ℚ)) = some cls ∧
        r.predicted_class =
          ((alookup Vit.DISEASE_INFO cls).map (fun d => d.name)).getD cls ∧
        r.all_confidences =
          softmax (fun x => x + 2) ([0, 1, 0, 0, 0, 0, 0, 0] : List ℚ) ∧
        r.confidence = r.all_confidences.getD
          (argmaxIdx ([0, 1, 0, 0, 0, 0, 0, 0] : List ℚ)) 0 ∧
        argmaxIdx r.all_confidences =
          argmaxIdx ([0, 1, 0, 0, 0, 0, 0, 0] : List ℚ) ∧
        (∀ p ∈ r.all_confidences, p ≤ r.confidence)) ∧
    (∃ (r : PredictionResult ℚ) (cls : String),
        Keras.predict_class (some fun _ : Unit => ([0, 0, 1, 0, 0, 0] : List ℚ))
            () = some r ∧
        Keras.CLASSES.get?
            (argmaxIdx ((fun _ : Unit => ([0, 0, 1, 0, 0, 0] : List ℚ)) ())) =
          some cls ∧
        r.predicted_class =
          ((alookup Keras.DISEASE_INFO cls).map (fun d => d.name)).getD cls ∧
        r.all_confidences = (fun _ : Unit => ([0, 0, 1, 0, 0, 0] : List ℚ)) () ∧
        r.confidence = r.all_confidences.getD
          (argmaxIdx ((fun _ : Unit => ([0, 0, 1, 0, 0, 0] : List ℚ)) ())) 0 ∧
        (∀ p ∈ r.all_confidences, p ≤ r.confidence)) :=
  ⟨C5_confidence_is_argmax_probability.1 ℚ (fun x => x + 2)
      ([0, 1, 0, 0, 0, 0, 0, 0] : List ℚ) rfl
      (by intro x hx; fin_cases hx <;> norm_num)
      (by intro a _ b _ h; simpa using h),
   C5_confidence_is_argmax_probability.2 ℚ Unit
      (fun _ => ([0, 0, 1, 0, 0, 0] : List ℚ)) () rfl⟩

/-! ### C6 -/

/-- C6: past its two request-level guards, the multi-file `/predict`
route of the ViT service answers with exactly the per-file map of the
loop body, so there is one entry per uploaded file in upload order, the
entry at index `i` is a function of file `i` alone, an invalid file
yields its error entry, and a valid file yields the prediction dict or
the per-file processing-error entry. -/
theorem C6_one_result_entry_per_file :
    ∀ (Img α : Type) [LinearOrderedField α] (E : α → α)
      (dF : Img → Option (List α)) (files : List (UploadedFile Img)),
      (files.isEmpty || files.all (fun f => f.filename == "")) = false →
      Vit.predictRoute E dF (some files) =
        .ok (files.map (Vit.processFile E dF)) ∧
      (files.map (Vit.processFile E dF)).length = files.length ∧
      (∀ i : Nat, (files.map (Vit.processFile E dF)).get? i =
        (files.get? i).map (Vit.processFile E dF)) ∧
      (∀ f ∈ files, (fileTruthy f && Vit.allowed_file f.filename) = false →
        Vit.processFile E dF f = .err ("Invalid file: " ++ f.filename)) ∧
      (∀ f ∈ files, (fileTruthy f && Vit.allowed_file f.filename) = true →
        ∀ p, Vit.predict_image E dF f.content = some p →
          Vit.processFile E dF f = .pred p) ∧
      (∀ f ∈ files, (fileTruthy f && Vit.allowed_file f.filename) = true →
        Vit.predict_image E dF f.content = none →
        Vit.processFile E dF f = .err "Failed to process image") := by
  intro Img α _ E dF files h
  refine ⟨?_, List.length_map files _, ?_, ?_, ?_, ?_⟩
  · simp only [Vit.predictRoute]
    rw [if_neg (by simp [h])]
  · intro i
    simp [List.getElem?_map, List.get?_eq_getElem?]
  · intro f _ hv
    simp [Vit.processFile, hv]
  · intro f _ hv p hp
    simp [Vit.processFile, hv, hp]
  · intro f _ hv hp
    simp [Vit.processFile, hv, hp]

/-- Witness for C6 at a two-file upload (one valid name, one invalid)
with an oracle that fails to decode: the route answers with one entry
per file, in order. -/
theorem C6_one_result_entry_per_file_witness :
    (((([⟨"leaf.png", ()⟩, ⟨"bad", ()⟩] : List (UploadedFile Unit))).isEmpty ||
        (([⟨"leaf.png", ()⟩, ⟨"bad", ()⟩] : List (UploadedFile Unit))).all
          (fun f => f.filename == "")) = false) ∧
    Vit.predictRoute (fun x : ℚ => x) (fun _ : Unit => none)
        (some [⟨"leaf.png", ()⟩, ⟨"bad", ()⟩]) =
      .ok (([⟨"leaf.png", ()⟩, ⟨"bad", ()⟩] : List (UploadedFile Unit)).map
        (Vit.processFile (fun x : ℚ => x) (fun _ : Unit => none))) :=
  ⟨by decide,
   (C6_one_result_entry_per_file Unit ℚ (fun x => x) (fun _ => none)
      [⟨"leaf.png", ()⟩, ⟨"bad", ()⟩] (by decide)).1⟩

/-! ### C8 -/

/-- C8: the softmax probability vector of the ViT service sums to 1 and
has entries in `[0, 1]` (exactly, in the idealised field semantics — the
floating-point code satisfies this within tolerance), and the Keras
service passes the model's output row through unchanged as
`all_confidences`, so it is a probability vector whenever the loaded
model's output is one (the `.h5` model itself is an external artifact;
per the spec it maps each image to a fixed-length probability vector). -/
theorem C8_probability_vector :
    (∀ (α : Type) [LinearOrderedField α] (E : α → α) (logits : List α),
        logits ≠ [] → (∀ x ∈ logits, 0 < E x) →
        (softmax E logits).sum = 1 ∧
        ∀ p ∈ softmax E logits, 0 ≤ p ∧ p ≤ 1) ∧
    (∀ (α : Type) [LinearOrderedField α] (E : α → α) (logits : List α)
        (r : PredictionResult α),
        Vit.buildFromLogits E logits = some r →
        r.all_confidences = softmax E logits) ∧
    (∀ (α : Type) [LinearOrderedField α] (ImgArr : Type)
        (m : ImgArr → List α) (a : ImgArr) (r : PredictionResult α),
        Keras.predict_class (some m) a = some r →
        r.all_confidences = m a ∧
        ((m a).sum = 1 ∧ (∀ p ∈ m a, 0 ≤ p ∧ p ≤ 1) →
          r.all_confidences.sum = 1 ∧
          ∀ p ∈ r.all_confidences, 0 ≤ p ∧ p ≤ 1)) := by
  refine ⟨?_, ?_, ?_⟩
  · intro α _ E logits hne hpos
    exact ⟨softmax_sum_eq_one E logits hpos hne,
      softmax_mem_bounds E logits hpos hne⟩
  · intro α _ E logits r hb
    simp only [Vit.buildFromLogits] at hb
    split at hb
    · exact absurd hb (by simp)
    · split at hb
      · exact absurd hb (by simp)
      · injection hb with hb
        rw [← hb]
  · intro α _ ImgArr m a r hb
    simp only [Keras.predict_class] at hb
    split at hb
    · exact absurd hb (by simp)
    · split at hb
      · exact absurd hb (by simp)
      · injection hb with hb
        constructor
        · rw [← hb]
        · intro hprob
          rw [← hb]
          exact hprob

/-- Witness for C8: the softmax of `[0, 1]` under `x ↦ x + 2`, the ViT
pass-through at 8 logits, and the Keras pass-through at a 6-entry output
row. -/
theorem C8_probability_vector_witness :
    ((softmax (fun x => x + 2) ([0, 1] : List ℚ)).sum = 1 ∧
      ∀ p ∈ softmax (fun x => x + 2) ([0, 1] : List ℚ), 0 ≤ p ∧ p ≤ 1) ∧
    (∃ r : PredictionResult ℚ,
        Vit.buildFromLogits (fun x => x + 2)
            ([0, 1, 0, 0, 0, 0, 0, 0] : List ℚ) = some r ∧
        r.all_confidences =
          softmax (fun x => x + 2) ([0, 1, 0, 0, 0, 0, 0, 0] : List ℚ)) ∧
    (∃ r : PredictionResult ℚ,
        Keras.predict_class (some fun _ : Unit => ([0, 0, 1, 0, 0, 0] : List ℚ))
            () = some r ∧
        r.all_confidences = ([0, 0, 1, 0, 0, 0] : List ℚ)) := by
  refine ⟨C8_probability_vector.1 ℚ (fun x => x + 2) [0, 1] (by decide)
      (by intro x hx; fin_cases hx <;> norm_num), ?_, ?_⟩
  · have hs : (Vit.buildFromLogits (fun x => x + 2)
        ([0, 1, 0, 0, 0, 0, 0, 0] : List ℚ)).isSome = true := by
      rfl
    obtain ⟨r, hr⟩ := Option.isSome_iff_exists.1 hs
    exact ⟨r, hr, C8_probability_vector.2.1 ℚ (fun x => x + 2) _ r hr⟩
  · have hs : (Keras.predict_class
        (some fun _ : Unit => ([0, 0, 1, 0, 0, 0] : List ℚ)) ()).isSome = true := by
      rfl
    obtain ⟨r, hr⟩ := Option.isSome_iff_exists.1 hs
    exact ⟨r, hr,
      (C8_probability_vector.2.2 ℚ Unit (fun _ => [0, 0, 1, 0, 0, 0]) () r hr).1⟩

/-! ### C9 -/

/-- C9: each serving script's class list is fully covered by its
`DISEASE_INFO` dictionary, with non-empty causes, cure and prevention
lists; consequently every successful prediction of either service
carries the record's human-readable name and non-empty lists — the
empty defaults of the `.get` lookups are unreachable. -/
theorem C9_disease_info_covers_class_lists :
    (∀ c ∈ Vit.CLASS_NAMES, ∃ rec, alookup Vit.DISEASE_INFO c = some rec ∧
        rec.causes ≠ [] ∧ rec.cure ≠ [] ∧ rec.prevention ≠ []) ∧
    (∀ c ∈ Keras.CLASSES, ∃ rec, alookup Keras.DISEASE_INFO c = some rec ∧
        rec.causes ≠ [] ∧ rec.cure ≠ [] ∧ rec.prevention ≠ []) ∧
    (∀ (α : Type) [LinearOrderedField α] (E : α → α) (logits : List α)
        (r : PredictionResult α),
        Vit.buildFromLogits E logits = some r →
        ∃ cls rec, cls ∈ Vit.CLASS_NAMES ∧
          alookup Vit.DISEASE_INFO cls = some rec ∧
          r.predicted_class = rec.name ∧ r.causes = rec.causes ∧
          r.cure = rec.cure ∧ r.prevention = rec.prevention ∧
          r.causes ≠ [] ∧ r.cure ≠ [] ∧ r.prevention ≠ []) ∧
    (∀ (α : Type) [LinearOrderedField α] (ImgArr : Type)
        (m : ImgArr → List α) (a : ImgArr) (r : PredictionResult α),
        Keras.predict_class (some m) a = some r →
        ∃ cls rec, cls ∈ Keras.CLASSES ∧
          alookup Keras.DISEASE_INFO cls = some rec ∧
          r.predicted_class = rec.name ∧ r.causes = rec.causes ∧
          r.cure = rec.cure ∧ r.prevention = rec.prevention ∧
          r.causes ≠ [] ∧ r.cure ≠ [] ∧ r.prevention ≠ []) := by
  have hVit : ∀ c ∈ Vit.CLASS_NAMES,
      recordOk (alookup Vit.DISEASE_INFO c) = true := by decide
  have hKeras : ∀ c ∈ Keras.CLASSES,
      recordOk (alookup Keras.DISEASE_INFO c) = true := by decide
  refine ⟨fun c hc => (recordOk_iff _).1 (hVit c hc),
    fun c hc => (recordOk_iff _).1 (hKeras c hc), ?_, ?_⟩
  · intro α _ E logits r hb
    simp only [Vit.buildFromLogits] at hb
    split at hb
    · exact absurd hb (by simp)
    · split at hb
      · exact absurd hb (by simp)
      · next cls hcls =>
          have hmem : cls ∈ Vit.CLASS_NAMES := List.get?_mem hcls
          obtain ⟨rec, hrec, hc1, hc2, hc3⟩ :=
            (recordOk_iff _).1 (hVit cls hmem)
          injection hb with hb
          refine ⟨cls, rec, hmem, hrec, ?_, ?_, ?_, ?_, ?_, ?_, ?_⟩ <;>
            rw [← hb] <;> simp [hrec, hc1, hc2, hc3]
  · intro α _ ImgArr m a r hb
    simp only [Keras.predict_class] at hb
    split at hb
    · exact absurd hb (by simp)
    · split at hb
      · exact absurd hb (by simp)
      · next cls hcls =>
          have hmem : cls ∈ Keras.CLASSES := List.get?_mem hcls
          obtain ⟨rec, hrec, hc1, hc2, hc3⟩ :=
            (recordOk_iff _).1 (hKeras cls hmem)
          injection hb with hb
          refine ⟨cls, rec, hmem, hrec, ?_, ?_, ?_, ?_, ?_, ?_, ?_⟩ <;>
            rw [← hb] <;> simp [hrec, hc1, hc2, hc3]

/-- Witness for C9: the coverage facts applied at label `"rust_1"` (a
member of both class lists), and unreachable-fallback facts at concrete
successful predictions of both services. -/
theorem C9_disease_info_covers_class_lists_witness :
    (∃ rec, alookup Vit.DISEASE_INFO "rust_1" = some rec ∧
        rec.causes ≠ [] ∧ rec.cure ≠ [] ∧ rec.prevention ≠ []) ∧
    (∃ rec, alookup Keras.DISEASE_INFO "rust_1" = some rec ∧
        rec.causes ≠ [] ∧ rec.cure ≠ [] ∧ rec.prevention ≠ []) ∧
    (∃ (r : PredictionResult ℚ) (cls : String) (rec : DiseaseRecord),
        Vit.buildFromLogits (fun x => x + 2)
            ([0, 1, 0, 0, 0, 0, 0, 0] : List ℚ) = some r ∧
        cls ∈ Vit.CLASS_NAMES ∧
        alookup Vit.DISEASE_INFO cls = some rec ∧
        r.predicted_class = rec.name ∧
        r.causes ≠ [] ∧ r.cure ≠ [] ∧ r.prevention ≠ []) ∧
    (∃ (r : PredictionResult ℚ) (cls : String) (rec : DiseaseRecord),
        Keras.predict_class (some fun _ : Unit => ([0, 0, 1, 0, 0, 0] : List ℚ))
            () = some r ∧
        cls ∈ Keras.CLASSES ∧
        alookup Keras.DISEASE_INFO cls = some rec ∧
        r.predicted_class = rec.name ∧
        r.causes ≠ [] ∧ r.cure ≠ [] ∧ r.prevention ≠ []) := by
  refine ⟨C9_disease_info_covers_class_lists.1 "rust_1" (by decide),
    C9_disease_info_covers_class_lists.2.1 "rust_1" (by decide), ?_, ?_⟩
  · have hs : (Vit.buildFromLogits (fun x => x + 2)
        ([0, 1, 0, 0, 0, 0, 0, 0] : List ℚ)).isSome = true := by rfl
    obtain ⟨r, hr⟩ := Option.isSome_iff_exists.1 hs
    obtain ⟨cls, rec, hmem, hrec, hname, _, _, _, hc1, hc2, hc3⟩ :=
      C9_disease_info_covers_class_lists.2.2.1 ℚ (fun x => x + 2) _ r hr
    exact ⟨r, cls, rec, hr, hmem, hrec, hname, hc1, hc2, hc3⟩
  · have hs : (Keras.predict_class
        (some fun _ : Unit => ([0, 0, 1, 0, 0, 0] : List ℚ)) ()).isSome = true := by
      rfl
    obtain ⟨r, hr⟩ := Option.isSome_iff_exists.1 hs
    obtain ⟨cls, rec, hmem, hrec, hname, _, _, _, hc1, hc2, hc3⟩ :=
      C9_disease_info_covers_class_lists.2.2.2 ℚ Unit
        (fun _ => [0, 0, 1, 0, 0, 0]) () r hr
    exact ⟨r, cls, rec, hr, hmem, hrec, hname, hc1, hc2, hc3⟩

/-! ### C10 -/

/-- C10: the Keras service's `predict_class` is total into
`Option` — its `try`/`except` turns every internal failure into `None`:
a missing model (failed `load_model`) yields `None`, an argmax index at
or beyond the 6-entry `CLASSES` list (a caught `IndexError`) yields
`None`, and the `/predict` route converts a `None` prediction into the
JSON error payload with HTTP status 500. -/
theorem C10_keras_prediction_failure_paths :
    (∀ (ImgArr α : Type) [LinearOrderedField α] (a : ImgArr),
        Keras.predict_class (none : Option (ImgArr → List α)) a = none) ∧
    (∀ (ImgArr α : Type) [LinearOrderedField α] (m : ImgArr → List α)
        (a : ImgArr),
        Keras.CLASSES.length ≤ argmaxIdx (m a) →
        Keras.predict_class (some m) a = none) ∧
    (∀ (Img ImgArr α : Type) [LinearOrderedField α] (f : UploadedFile Img)
        (pp : Img → Option ImgArr) (model : Option (ImgArr → List α))
        (ia : ImgArr),
        f.filename ≠ "" → Keras.allowed_file f.filename = true →
        pp f.content = some ia →
        Keras.predict_class model ia = none →
        Keras.predictRoute (some f) pp model =
          .err "Error making prediction" 500) := by
  refine ⟨fun ImgArr α _ a => rfl, ?_, ?_⟩
  · intro ImgArr α _ m a h
    simp only [Keras.predict_class]
    by_cases hemp : (m a).isEmpty
    · rw [if_pos hemp]
    · rw [if_neg hemp]
      rw [List.get?_eq_none.2 h]
  · intro Img ImgArr α _ f pp model ia hne hall hpp hpc
    simp [Keras.predictRoute, hne, hall, hpp, hpc]

/-- Witness for C10: a missing model, a 7-wide output row whose argmax
index 6 overruns the class list, and the route's 500 conversion. -/
theorem C10_keras_prediction_failure_paths_witness :
    Keras.predict_class (none : Option (Unit → List ℚ)) () = none ∧
    (Keras.CLASSES.length ≤
        argmaxIdx ((fun _ : Unit => ([0, 0, 0, 0, 0, 0, 1] : List ℚ)) ()) ∧
      Keras.predict_class
        (some fun _ : Unit => ([0, 0, 0, 0, 0, 0, 1] : List ℚ)) () = none) ∧
    Keras.predictRoute (some (⟨"leaf.png", ()⟩ : UploadedFile Unit))
        (fun _ : Unit => some ())
        (none : Option (Unit → List ℚ)) =
      .err "Error making prediction" 500 :=
  ⟨C10_keras_prediction_failure_paths.1 Unit ℚ (),
   ⟨by decide,
    C10_keras_prediction_failure_paths.2.1 Unit ℚ
      (fun _ => ([0, 0, 0, 0, 0, 0, 1] : List ℚ)) () (by decide)⟩,
   C10_keras_prediction_failure_paths.2.2 Unit Unit ℚ ⟨"leaf.png", ()⟩
     (fun _ => some ()) none () (by decide) (by decide) rfl rfl⟩
